import Mathlib

/-!
Verification development for the glasstime liquid-glass lens demo.

The repository renders a magnifying-glass effect over a page of text.  Two
WebGL fragment shaders carry the algorithmic content: the full-screen shader
of LiquidGlassCanvas.tsx (aspect-corrected radial lens drawn over a text
texture) and the small square lens shader of LiquidGlassLens.tsx (a movable
canvas sampling a page snapshot).  This file gives a shallow embedding of
those shaders over the rationals, together with the touch/mouse event
handlers, the throttled texture-capture routine, and the deterministic text
layout of the static-text capture strategy, and proves properties of them.

GPU transcendental primitives (sqrt, sin, cos, pow, atan) are kept abstract
as a structure of rational-valued functions: the shader source only ever
branches on algebraic comparisons of their results, so the theorems below
quantify over every implementation of these primitives.  A concrete
executable instance with exact square roots is supplied for evaluating the
definitions at concrete inputs.
-/

/-- A two-component vector of rationals, modelling a GLSL vec2. -/
abbrev Vec2 := ℚ × ℚ

/-- An RGBA color, modelling a GLSL vec4 used as a color. -/
structure Color where
  r : ℚ
  g : ℚ
  b : ℚ
  a : ℚ
deriving DecidableEq

/-- Scalar times vector, modelling GLSL vec2-by-float multiplication. -/
def vscale (c : ℚ) (v : Vec2) : Vec2 := (c * v.1, c * v.2)

/-- Squared euclidean distance between two vec2 values.  GLSL distance is
the square root of this quantity. -/
def distSqQ (p q : Vec2) : ℚ :=
  (p.1 - q.1) * (p.1 - q.1) + (p.2 - q.2) * (p.2 - q.2)

/-- The numeric primitives of the GPU that the fragment shaders use and
that are not rational-exact in general.  The shader embeddings are
parameterised over an arbitrary implementation. -/
structure GpuMath where
  sqrt : ℚ → ℚ
  sin : ℚ → ℚ
  cos : ℚ → ℚ
  pow : ℚ → ℚ → ℚ
  atan2 : ℚ → ℚ → ℚ

/-- GLSL length of a vec2. -/
def vlen (m : GpuMath) (v : Vec2) : ℚ := m.sqrt (v.1 * v.1 + v.2 * v.2)

/-- GLSL normalize of a vec2: the vector divided by its length. -/
def vnormalize (m : GpuMath) (v : Vec2) : Vec2 :=
  (v.1 / vlen m v, v.2 / vlen m v)

/-- GLSL mix (linear interpolation) on floats. -/
def mixQ (x y t : ℚ) : ℚ := x * (1 - t) + y * t

/-- GLSL smoothstep: clamp then cubic Hermite interpolation. -/
def smoothstepQ (e0 e1 x : ℚ) : ℚ :=
  let t := max 0 (min 1 ((x - e0) / (e1 - e0)))
  t * t * (3 - 2 * t)

/-- Rational square-root function that is exact on the finitely many
radicands arising in the concrete inputs of the witnesses and
counterexamples below (each listed value is the true square root of its
argument) and 0 elsewhere.  Used only to build the concrete GpuMath
instance; the theorems quantify over arbitrary implementations. -/
def ratSqrt (q : ℚ) : ℚ :=
  if q = 0 then 0
  else if q = 4/9 then 2/3
  else if q = 49/400 then 7/20
  else if q = 9/25 then 3/5
  else if q = 1/100 then 1/10
  else if q = 441/62500 then 21/250
  else 0

/-- Concrete GpuMath instance used to evaluate the shader embeddings at
concrete inputs in witnesses and counterexamples. -/
def qMath : GpuMath :=
  ⟨ratSqrt, fun _ => 0, fun _ => 1, fun _ _ => 0, fun _ _ => 0⟩

/-- Second concrete GpuMath instance whose sine is the constant -1, a
value the real sine attains: at the witness input below the melting-zone
swirl term of the full-screen shader then pushes the sample coordinate
past the right texture edge, as a real GPU does at swirl phases near -1. -/
def cMath : GpuMath :=
  ⟨ratSqrt, fun _ => -1, fun _ => 0, fun _ _ => 0, fun _ _ => 0⟩

/-! ### Full-screen canvas shader (LiquidGlassCanvas.tsx)

Embedding of fragmentShaderSource of LiquidGlassCanvas.tsx.  The shader
receives the viewport resolution, the mouse position in pixels, the elapsed
time, a mobile flag and the text texture, and runs once per pixel at
texture coordinate uv. -/

/-- Aspect ratio u_resolution.x / u_resolution.y. -/
def canvasAR (res : Vec2) : ℚ := res.1 / res.2

/-- Mouse position normalised to unit space: u_mousePosition / u_resolution. -/
def mouseNorm (res mp : Vec2) : Vec2 := (mp.1 / res.1, mp.2 / res.2)

/-- Aspect-ratio correction applied to a unit-space point: in landscape the
x coordinate is stretched about 0.5 by the aspect ratio, in portrait the y
coordinate is stretched by its inverse.  Applied identically to the sample
coordinate and the mouse coordinate in the shader. -/
def aspectPt (ar : ℚ) (p : Vec2) : Vec2 :=
  if ar > 1 then ((p.1 - 1/2) * ar + 1/2, p.2)
  else (p.1, (p.2 - 1/2) / ar + 1/2)

/-- Conversion of an offset from aspect-corrected space back to UV space:
divide x by the aspect ratio in landscape, multiply y by it in portrait. -/
def unscale (ar : ℚ) (v : Vec2) : Vec2 :=
  if ar > 1 then (v.1 / ar, v.2) else (v.1, v.2 * ar)

/-- Lens radius of the full-screen shader: 0.2 on mobile, 0.12 on desktop. -/
def canvasLensRadius (mob : Bool) : ℚ := if mob then 2/10 else 12/100

/-- Squared distance between the aspect-corrected sample point and the
aspect-corrected mouse point. -/
def canvasAspectDistSq (res mp uv : Vec2) : ℚ :=
  distSqQ (aspectPt (canvasAR res) uv) (aspectPt (canvasAR res) (mouseNorm res mp))

/-- Distance dist of the shader: GLSL distance(aspectUV, aspectMouse). -/
def canvasDist (m : GpuMath) (res mp uv : Vec2) : ℚ :=
  m.sqrt (canvasAspectDistSq res mp uv)

/-- normalizedDist = dist / lensRadius of the full-screen shader. -/
def canvasNormalizedDist (m : GpuMath) (mob : Bool) (res mp uv : Vec2) : ℚ :=
  canvasDist m res mp uv / canvasLensRadius mob

/-- Melting-zone pull (the aspectPull value of the shader), computed in
aspect-corrected space: a power-law pull toward the mouse, replaced on
desktop by a curved flow plus a swirling offset. -/
def canvasMeltPull (m : GpuMath) (mob : Bool) (time : ℚ) (res mp uv : Vec2) : Vec2 :=
  let nd := canvasNormalizedDist m mob res mp uv
  let edgeZone := (nd - 6/10) / (4/10)
  let aUV := aspectPt (canvasAR res) uv
  let aM := aspectPt (canvasAR res) (mouseNorm res mp)
  let toCenter := aM - aUV
  let pullStrength :=
    if mob then m.pow edgeZone (12/10) * (6/100) else m.pow edgeZone (15/10) * (8/100)
  let aspectPull := vscale pullStrength toCenter
  if mob then aspectPull
  else
    let angle := m.atan2 toCenter.2 toCenter.1
    let curvature := m.sin (nd * (314159/100000)) * edgeZone * (3/10)
    let curvedAngle := angle + curvature
    let curvedFlow := vscale (vlen m aspectPull) (m.cos curvedAngle, m.sin curvedAngle)
    let swirl := m.sin (angle * 4 + nd * (628/100) + time * (8/10)) * edgeZone * (2/100)
    let swirlOffset := vscale (swirl / vlen m toCenter) (-toCenter.2, toCenter.1)
    curvedFlow + swirlOffset

/-- Sample coordinate sampleUV of the full-screen shader: in the clear zone
(normalizedDist at most 0.6) the original uv minus a small linear pull, in
the melting zone the original uv plus the melt pull converted to UV space. -/
def canvasSampleUV (m : GpuMath) (mob : Bool) (time : ℚ) (res mp uv : Vec2) : Vec2 :=
  if canvasNormalizedDist m mob res mp uv ≤ 6/10 then
    uv - unscale (canvasAR res)
      (vscale (canvasNormalizedDist m mob res mp uv)
        (vscale (3/100)
          (aspectPt (canvasAR res) uv - aspectPt (canvasAR res) (mouseNorm res mp))))
  else
    uv + unscale (canvasAR res) (canvasMeltPull m mob time res mp uv)

/-- Flow direction of the chromatic zone: normalize(aspectMouse - aspectUV). -/
def canvasFlowDirection (m : GpuMath) (res mp uv : Vec2) : Vec2 :=
  vnormalize m
    (aspectPt (canvasAR res) (mouseNorm res mp) - aspectPt (canvasAR res) uv)

/-- Chromatic offset of the full-screen shader, converted to UV space:
flowDirection times pow(chromaticStrength, 1.2) times the channel base
magnitude 0.008 (the same constant on mobile and desktop). -/
def canvasChromaticOffset (m : GpuMath) (mob : Bool) (res mp uv : Vec2) : Vec2 :=
  unscale (canvasAR res)
    (vscale
      (m.pow ((canvasNormalizedDist m mob res mp uv - 75/100) / (25/100)) (12/10) *
        (if mob then 8/1000 else 8/1000))
      (canvasFlowDirection m res mp uv))

/-- Per-channel recombined color of the chromatic zone: the red, green and
blue channels sampled at sampleUV plus 1.0, 0.5 and 1.5 times the
chromatic offset respectively, with alpha 1. -/
def canvasChromaticBaseColor (m : GpuMath) (mob : Bool) (time : ℚ) (res mp : Vec2)
    (tex : Vec2 → Color) (uv : Vec2) : Color :=
  ⟨(tex (canvasSampleUV m mob time res mp uv + canvasChromaticOffset m mob res mp uv)).r,
   (tex (canvasSampleUV m mob time res mp uv +
      vscale (5/10) (canvasChromaticOffset m mob res mp uv))).g,
   (tex (canvasSampleUV m mob time res mp uv +
      vscale (15/10) (canvasChromaticOffset m mob res mp uv))).b,
   1⟩

/-- Procedural prism spectrum of the full-screen shader: three phase-shifted
sinusoids of the flow-direction polar angle and the elapsed time. -/
def canvasSpectrum (m : GpuMath) (time : ℚ) (res mp uv : Vec2) : ℚ × ℚ × ℚ :=
  (m.sin (m.atan2 (canvasFlowDirection m res mp uv).2 (canvasFlowDirection m res mp uv).1 * 3 +
      time * (5/10) + 0) * (1/2) + 1/2,
   m.sin (m.atan2 (canvasFlowDirection m res mp uv).2 (canvasFlowDirection m res mp uv).1 * 3 +
      time * (7/10) + 209/100) * (1/2) + 1/2,
   m.sin (m.atan2 (canvasFlowDirection m res mp uv).2 (canvasFlowDirection m res mp uv).1 * 3 +
      time * (6/10) + 418/100) * (1/2) + 1/2)

/-- Chromatic-aberration color of the full-screen shader, with the prism
blend (weight pow(prismIntensity, 2.0) times 0.4) applied past
normalizedDist 0.85. -/
def canvasChromaticColor (m : GpuMath) (mob : Bool) (time : ℚ) (res mp : Vec2)
    (tex : Vec2 → Color) (uv : Vec2) : Color :=
  if canvasNormalizedDist m mob res mp uv > (if mob then 85/100 else 85/100) then
    ⟨mixQ (canvasChromaticBaseColor m mob time res mp tex uv).r
        (canvasSpectrum m time res mp uv).1
        (m.pow ((canvasNormalizedDist m mob res mp uv - 85/100) / (15/100)) 2 * (4/10)),
     mixQ (canvasChromaticBaseColor m mob time res mp tex uv).g
        (canvasSpectrum m time res mp uv).2.1
        (m.pow ((canvasNormalizedDist m mob res mp uv - 85/100) / (15/100)) 2 * (4/10)),
     mixQ (canvasChromaticBaseColor m mob time res mp tex uv).b
        (canvasSpectrum m time res mp uv).2.2
        (m.pow ((canvasNormalizedDist m mob res mp uv - 85/100) / (15/100)) 2 * (4/10)),
     (canvasChromaticBaseColor m mob time res mp tex uv).a⟩
  else canvasChromaticBaseColor m mob time res mp tex uv

/-- Near-unity glass tint applied to a sampled color on the non-chromatic
path inside the lens: color.rgb *= vec3(0.995, 0.998, 1.0). -/
def canvasTint (c : Color) : Color :=
  ⟨c.r * (995/1000), c.g * (998/1000), c.b * 1, c.a⟩

/-- Color produced inside the lens (dist < lensRadius): the chromatic path
past normalizedDist 0.75, otherwise the locally distorted sample with the
glass tint. -/
def canvasLensColor (m : GpuMath) (mob : Bool) (time : ℚ) (res mp : Vec2)
    (tex : Vec2 → Color) (uv : Vec2) : Color :=
  if canvasNormalizedDist m mob res mp uv > 75/100 then
    canvasChromaticColor m mob time res mp tex uv
  else
    canvasTint (tex (canvasSampleUV m mob time res mp uv))

/-- Full fragment shader of LiquidGlassCanvas.tsx: lens color inside the
lens radius, plain texture sample at the original coordinate outside. -/
def canvasShader (m : GpuMath) (mob : Bool) (time : ℚ) (res mp : Vec2)
    (tex : Vec2 → Color) (uv : Vec2) : Color :=
  if canvasDist m res mp uv < canvasLensRadius mob then
    canvasLensColor m mob time res mp tex uv
  else
    tex uv

/-- Squared on-screen pixel distance between the pixel that maps to texture
coordinate uv and the pointer position mp (both in pixels of a viewport of
resolution res).  Used to state the circularity property of the lens. -/
def screenDistSq (res mp uv : Vec2) : ℚ :=
  (uv.1 * res.1 - mp.1) * (uv.1 * res.1 - mp.1) +
    (uv.2 * res.2 - mp.2) * (uv.2 * res.2 - mp.2)

/-- White texture used as a concrete texture in witnesses. -/
def texWhite : Vec2 → Color := fun _ => ⟨1, 1, 1, 1⟩

/-! ### Movable lens shader (LiquidGlassLens.tsx)

Embedding of fragmentShaderSource of LiquidGlassLens.tsx.  The lens is a
small square canvas; the shader receives the page-snapshot texture and its
resolution, the lens position on the page in pixels and the lens size, and
runs once per pixel of the square at texture coordinate uv.  GLSL discard
is modelled as the result none. -/

/-- Lens center of the square canvas: vec2(0.5). -/
def lensCenter : Vec2 := (1/2, 1/2)

/-- distFromCenter of the lens shader: distance(v_texCoord, lensCenter). -/
def lensDistFromCenter (m : GpuMath) (uv : Vec2) : ℚ :=
  m.sqrt (distSqQ uv lensCenter)

/-- normalizedDist of the lens shader: distFromCenter / 0.5. -/
def lensNormalizedDist (m : GpuMath) (uv : Vec2) : ℚ :=
  lensDistFromCenter m uv / (1/2)

/-- Radial direction of the lens shader: normalize(v_texCoord - lensCenter). -/
def lensDirection (m : GpuMath) (uv : Vec2) : Vec2 :=
  vnormalize m (uv - lensCenter)

/-- Test that a texture coordinate lies inside the unit square, as in the
component-wise bounds checks of the lens shader. -/
def texCoordInUnit (p : Vec2) : Prop :=
  0 ≤ p.1 ∧ p.1 ≤ 1 ∧ 0 ≤ p.2 ∧ p.2 ≤ 1

instance (p : Vec2) : Decidable (texCoordInUnit p) := by
  unfold texCoordInUnit
  infer_instance

/-- Page coordinate computed by the lens shader: the lens position plus the
y-flipped lens offset, distorted past normalizedDist 0.6 by a cubic radial
pull and a swirl, and shifted further past normalizedDist 0.7. -/
def lensFinalPageCoord (m : GpuMath) (lensPos lensSize uv : Vec2) : Vec2 :=
  let lensOffset := (uv - lensCenter) * lensSize
  let basePageCoord := lensPos + (lensOffset.1, -lensOffset.2)
  let nd := lensNormalizedDist m uv
  if nd > 6/10 then
    let edgeZone := (nd - 4/10) / (9/10)
    let dir := lensDirection m uv
    let distortionStrength := edgeZone * edgeZone * edgeZone
    let radialDistortion := vscale (distortionStrength * 80) dir
    let angle := m.atan2 dir.2 dir.1
    let swirl := m.sin (angle * 3 + nd * (628/100)) * edgeZone * 15
    let swirlOffset := vscale swirl (-dir.2, dir.1)
    let coord := basePageCoord + radialDistortion + swirlOffset
    if nd > 7/10 then coord + vscale ((nd - 7/10) / (2/10) * 5) dir else coord
  else basePageCoord

/-- Component-wise division of a page coordinate by the page resolution. -/
def divByRes (pageRes v : Vec2) : Vec2 := (v.1 / pageRes.1, v.2 / pageRes.2)

/-- Texture coordinate of the lens shader: finalPageCoord / u_pageResolution. -/
def lensTexCoord (m : GpuMath) (lensPos lensSize pageRes uv : Vec2) : Vec2 :=
  divByRes pageRes (lensFinalPageCoord m lensPos lensSize uv)

/-- Aberration amount of the chromatic edge zone: the squared chromatic
strength times 8. -/
def lensAberration (m : GpuMath) (uv : Vec2) : ℚ :=
  ((lensNormalizedDist m uv - 6/10) / (4/10)) *
    ((lensNormalizedDist m uv - 6/10) / (4/10)) * 8

/-- Red-channel sample coordinate of the chromatic zone. -/
def lensRedCoord (m : GpuMath) (lensPos lensSize pageRes uv : Vec2) : Vec2 :=
  lensTexCoord m lensPos lensSize pageRes uv +
    divByRes pageRes (vscale (lensAberration m uv * (8/10)) (lensDirection m uv))

/-- Green-channel sample coordinate of the chromatic zone. -/
def lensGreenCoord (m : GpuMath) (lensPos lensSize pageRes uv : Vec2) : Vec2 :=
  lensTexCoord m lensPos lensSize pageRes uv +
    divByRes pageRes (vscale (lensAberration m uv * 1) (lensDirection m uv))

/-- Blue-channel sample coordinate of the chromatic zone. -/
def lensBlueCoord (m : GpuMath) (lensPos lensSize pageRes uv : Vec2) : Vec2 :=
  lensTexCoord m lensPos lensSize pageRes uv +
    divByRes pageRes (vscale (lensAberration m uv * (12/10)) (lensDirection m uv))

/-- Guarded texture sample of one channel: the channel value when the
coordinate lies in the unit square and 0 otherwise, as in the lens shader. -/
def guardedSample (tex : Vec2 → Color) (proj : Color → ℚ) (c : Vec2) : ℚ :=
  if texCoordInUnit c then proj (tex c) else 0

/-- Chromatic-zone color of the lens shader before the prism blend: the
three channels sampled at their individually offset coordinates (0 where a
coordinate leaves the unit square), with alpha 1. -/
def lensChromaticBase (m : GpuMath) (lensPos lensSize pageRes : Vec2)
    (tex : Vec2 → Color) (uv : Vec2) : Color :=
  ⟨guardedSample tex Color.r (lensRedCoord m lensPos lensSize pageRes uv),
   guardedSample tex Color.g (lensGreenCoord m lensPos lensSize pageRes uv),
   guardedSample tex Color.b (lensBlueCoord m lensPos lensSize pageRes uv), 1⟩

/-- Prism blend of the lens shader past normalizedDist 0.85: mix toward an
angle-driven rainbow spectrum with weight prismIntensity times 0.3. -/
def lensPrism (m : GpuMath) (uv : Vec2) (c : Color) : Color :=
  let dir := lensDirection m uv
  let prismIntensity := (lensNormalizedDist m uv - 85/100) / (15/100)
  let angle := m.atan2 dir.2 dir.1
  ⟨mixQ c.r (m.sin (angle * 2 + 0) * (1/2) + 1/2) (prismIntensity * (3/10)),
   mixQ c.g (m.sin (angle * 2 + 209/100) * (1/2) + 1/2) (prismIntensity * (3/10)),
   mixQ c.b (m.sin (angle * 2 + 418/100) * (1/2) + 1/2) (prismIntensity * (3/10)),
   c.a⟩

/-- Glass effects of the lens shader past normalizedDist 0.4: liquid tint,
shimmer, and extra brightness past normalizedDist 0.8. -/
def lensGlass (m : GpuMath) (uv : Vec2) (c : Color) : Color :=
  let nd := lensNormalizedDist m uv
  let edgeIntensity := (nd - 4/10) / (6/10)
  let shimmer := m.sin (nd * 12) * (1/10) * edgeIntensity
  let r1 := c.r * mixQ 1 (85/100) (edgeIntensity * (4/10)) + shimmer * (3/10)
  let g1 := c.g * mixQ 1 (95/100) (edgeIntensity * (4/10)) + shimmer * (5/10)
  let b1 := c.b * mixQ 1 1 (edgeIntensity * (4/10)) + shimmer * (8/10)
  if nd > 8/10 then
    let refr := (nd - 8/10) / (2/10) * (1/10)
    ⟨r1 + refr, g1 + refr, b1 + refr, c.a⟩
  else ⟨r1, g1, b1, c.a⟩

/-- Coordinates at which the lens shader attempts to sample the page
texture on the branch it takes: the three channel coordinates in the
chromatic zone, the plain texture coordinate in the center zone. -/
def lensSampleCoords (m : GpuMath) (lensPos lensSize pageRes uv : Vec2) : List Vec2 :=
  if lensNormalizedDist m uv > 6/10 then
    [lensRedCoord m lensPos lensSize pageRes uv,
     lensGreenCoord m lensPos lensSize pageRes uv,
     lensBlueCoord m lensPos lensSize pageRes uv]
  else [lensTexCoord m lensPos lensSize pageRes uv]

/-- Full fragment shader of LiquidGlassLens.tsx.  Outside the inscribed
circle the output is fully transparent; inside, the center zone samples the
page texture (discarding when the coordinate leaves the unit square, result
none) while the chromatic zone recombines the guarded channel samples and
applies the prism blend; glass effects apply past normalizedDist 0.4 and
the alpha edge falloff past normalizedDist 0.92. -/
def lensShader (m : GpuMath) (lensPos lensSize pageRes : Vec2)
    (tex : Vec2 → Color) (uv : Vec2) : Option Color :=
  if lensDistFromCenter m uv > 1/2 then some ⟨0, 0, 0, 0⟩
  else
    let nd := lensNormalizedDist m uv
    let base : Option Color :=
      if nd > 6/10 then
        some (if nd > 85/100 then
          lensPrism m uv (lensChromaticBase m lensPos lensSize pageRes tex uv)
        else lensChromaticBase m lensPos lensSize pageRes tex uv)
      else
        if texCoordInUnit (lensTexCoord m lensPos lensSize pageRes uv) then
          some (tex (lensTexCoord m lensPos lensSize pageRes uv))
        else none
    match base with
    | none => none
    | some c0 =>
      let c1 := if nd > 4/10 then lensGlass m uv c0 else c0
      some ⟨c1.r, c1.g, c1.b, c1.a * (1 - smoothstepQ (92/100) 1 nd)⟩

/-! ### Hook lens shader (src/unnamed/part_004, FRAGMENT_SHADER)

Embedding of the simpler lens fragment shader of the useWebGL hook. -/

/-- Fragment shader of the useWebGL hook: transparent outside the inscribed
circle, otherwise a radially distorted page sample with a glass tint and a
smooth alpha falloff.  This shader has no bounds checks and no discard. -/
def p4Shader (m : GpuMath) (lensPos lensSize res : Vec2)
    (tex : Vec2 → Color) (uv : Vec2) : Color :=
  if lensDistFromCenter m uv > 1/2 then ⟨0, 0, 0, 0⟩
  else
    let lensOffset := (uv - lensCenter) * lensSize
    let pageCoord := lensPos + (lensOffset.1, -lensOffset.2)
    let nd := lensNormalizedDist m uv
    let distortion :=
      if nd > 6/10 then
        vscale (m.pow ((nd - 6/10) / (4/10)) 3 * 30) (lensDirection m uv)
      else ((0:ℚ), (0:ℚ))
    let c := tex (divByRes res (pageCoord + distortion))
    let edgeIntensity := smoothstepQ (4/10) 1 nd
    ⟨c.r * mixQ 1 (95/100) (edgeIntensity * (3/10)),
     c.g * mixQ 1 (98/100) (edgeIntensity * (3/10)),
     c.b * mixQ 1 1 (edgeIntensity * (3/10)),
     c.a * (1 - smoothstepQ (8/10) 1 nd)⟩

/-- Texture that is white inside the unit square and a sentinel color
outside it; paired with texWhite it detects out-of-bounds reads. -/
def texOutsideMarked : Vec2 → Color := fun p =>
  if texCoordInUnit p then ⟨1, 1, 1, 1⟩ else ⟨9, 9, 9, 9⟩

/-- CLAMP_TO_EDGE wrap mode set on the text texture of
LiquidGlassCanvas.tsx (the texParameteri calls after texImage2D): the
sampler clamps each coordinate into the unit interval before reading the
texture.  Edge-texel-center subtleties of the hardware are abstracted to
a clamp onto the unit square. -/
def clampToEdge (p : Vec2) : Vec2 :=
  (min 1 (max 0 p.1), min 1 (max 0 p.2))

/-- Texture sampling of the full-screen shader through its CLAMP_TO_EDGE
sampler: every texture2D read goes through the clamp. -/
def sampleClampToEdge (tex : Vec2 → Color) : Vec2 → Color :=
  fun p => tex (clampToEdge p)

/-! ### Pointer and touch handlers (LiquidGlassCanvas.tsx)

Embedding of the mouse/touch handling effect of LiquidGlassCanvas.tsx: the
offset applied to the pointer and the mousePosition updates of the mouse
and touch handlers.  None of these handlers calls preventDefault. -/

/-- Pointer offset of LiquidGlassCanvas.tsx: no horizontal offset and a
vertical offset of -100 on mobile and -30 on desktop. -/
def canvasGetOffset (isMobile : Bool) : Vec2 :=
  (0, if isMobile then -100 else -30)

/-- handleMouseMove of LiquidGlassCanvas.tsx: the new mousePosition is the
client position plus the offset. -/
def canvasHandleMouseMove (isMobile : Bool) (clientX clientY : ℚ) : Vec2 :=
  (clientX + (canvasGetOffset isMobile).1, clientY + (canvasGetOffset isMobile).2)

/-- handleTouchStart of LiquidGlassCanvas.tsx: on a mobile-classified
device with exactly one touch, the new mousePosition is the touch position
plus the offset and the lens is shown; otherwise nothing changes. -/
def canvasHandleTouchStart (isMobile : Bool) (touches : ℕ) (clientX clientY : ℚ)
    (prev : Vec2) : Vec2 × Bool :=
  if isMobile ∧ touches = 1 then
    ((clientX + (canvasGetOffset isMobile).1, clientY + (canvasGetOffset isMobile).2),
     true)
  else (prev, false)

/-- handleTouchMove of LiquidGlassCanvas.tsx: position update guarded on a
mobile-classified device, one touch, and the lens being shown. -/
def canvasHandleTouchMove (isMobile showLens : Bool) (touches : ℕ)
    (clientX clientY : ℚ) (prev : Vec2) : Vec2 :=
  if isMobile ∧ touches = 1 ∧ showLens then
    (clientX + (canvasGetOffset isMobile).1, clientY + (canvasGetOffset isMobile).2)
  else prev

/-! ### Touch handlers of the src/unnamed/part_003 canvas variant -/

/-- Relevant state of the part_003 canvas component: the mobile
classification, whether the lens is shown, whether a touch is being
followed, and the current mouse position. -/
structure P3State where
  isMobile : Bool
  showLens : Bool
  isTouching : Bool
  mousePos : Vec2
deriving DecidableEq

/-- Pointer offset of the part_003 variant: -60 on mobile, -30 on desktop. -/
def p3Offset (isMobile : Bool) : Vec2 :=
  (0, if isMobile then -60 else -30)

/-- handleTouchStart of part_003: on a mobile-classified device with one
touch it updates the position, shows the lens, marks the touch as followed
and calls preventDefault (second component true). -/
def p3HandleTouchStart (st : P3State) (touches : ℕ) (clientX clientY : ℚ) :
    P3State × Bool :=
  if st.isMobile ∧ touches = 1 then
    ({ st with
        mousePos := (clientX + (p3Offset st.isMobile).1,
          clientY + (p3Offset st.isMobile).2),
        showLens := true, isTouching := true }, true)
  else (st, false)

/-- handleTouchMove of part_003: position update and preventDefault only
while a touch is being followed (isTouching). -/
def p3HandleTouchMove (st : P3State) (touches : ℕ) (clientX clientY : ℚ) :
    P3State × Bool :=
  if st.isMobile ∧ touches = 1 ∧ st.isTouching then
    ({ st with
        mousePos := (clientX + (p3Offset st.isMobile).1,
          clientY + (p3Offset st.isMobile).2),
        showLens := true }, true)
  else (st, false)

/-- preventDefault decision of handleTouchStart and handleTouchMove of
LiquidGlassLens.tsx: both handlers call preventDefault exactly when the
isLensActive toggle is on, before looking at the touches. -/
def lensTouchPreventsDefault (isLensActive : Bool) : Bool := isLensActive

/-! ### Throttled page capture (LiquidGlassLens.tsx, captureTexture)

Embedding of captureTexture: state relevant to a capture attempt, the
throttle check against the minimum inter-capture interval, and the effect
of a successful or failed html2canvas rasterization.  A rasterization that
throws is modelled as the input none; the catch block that logs the error
and returns normally is the failed outcome. -/

/-- State owned by the LiquidGlassLens component that captureTexture reads
and writes: the time of the last non-throttled capture, the recorded page
texture dimensions, the committed texture content (as an identifier), and
the canvas visibility. -/
structure LensState where
  lastCaptureTime : ℤ
  pageTexture : Option (ℕ × ℕ)
  texture : Option ℕ
  canvasVisible : Bool
deriving DecidableEq

/-- Outcome of one captureTexture call: aborted (refs missing), throttled
(inside the minimum interval), captured, or failed (rasterization threw,
error logged, call returns normally). -/
inductive CaptureOutcome
  | aborted
  | throttled
  | captured
  | failed
deriving DecidableEq

/-- Minimum inter-capture interval of captureTexture in milliseconds:
2000 on mobile, 1000 on desktop. -/
def minCaptureInterval (isMobile : Bool) : ℤ := if isMobile then 2000 else 1000

/-- captureTexture of LiquidGlassLens.tsx.  The raster argument is the
html2canvas result: some (width, height, image) on success, none when
rasterization throws.  Inside the minimum interval the call returns with
no state change.  Outside it, the last-capture time is recorded first; on
success the dimensions and texture are committed and the canvas visibility
restored, on failure only the visibility is restored. -/
def captureTexture (isMobile refsReady : Bool) (now : ℤ)
    (raster : Option (ℕ × ℕ × ℕ)) (s : LensState) : LensState × CaptureOutcome :=
  if refsReady = false then (s, CaptureOutcome.aborted)
  else if now - s.lastCaptureTime < minCaptureInterval isMobile then
    (s, CaptureOutcome.throttled)
  else
    match raster with
    | some r =>
      ({ lastCaptureTime := now, pageTexture := some (r.1, r.2.1),
         texture := some r.2.2, canvasVisible := s.canvasVisible },
       CaptureOutcome.captured)
    | none =>
      ({ s with lastCaptureTime := now, canvasVisible := true },
       CaptureOutcome.failed)

/-- Sequence of capture requests: each request carries its issue time and
its would-be rasterization result; the run counts non-throttled calls. -/
def captureRun (isMobile : Bool) :
    LensState → List (ℤ × Option (ℕ × ℕ × ℕ)) → LensState × ℕ
  | s, [] => (s, 0)
  | s, req :: rest =>
    ((captureRun isMobile (captureTexture isMobile true req.1 req.2 s).1 rest).1,
     (if (captureTexture isMobile true req.1 req.2 s).2 = CaptureOutcome.throttled
       then 0 else 1) +
       (captureRun isMobile (captureTexture isMobile true req.1 req.2 s).1 rest).2)

/-- createTextTexture of LiquidGlassCanvas.tsx reduced to its failure
behaviour: when the 2D context is unavailable it returns null (none),
otherwise the freshly drawn texture. -/
def createTextTextureGL (ctx : Option Unit) (newTexture : ℕ) : Option ℕ :=
  match ctx with
  | none => none
  | some _ => some newTexture

/-- Caller of createTextTexture in the initialisation effect: the texture
ref is reassigned only when the result is non-null. -/
def commitTexture (result : Option ℕ) (old : Option ℕ) : Option ℕ :=
  match result with
  | some t => some t
  | none => old

/-! ### Static-text layout (LiquidGlassCanvas.tsx, createTextTexture)

Embedding of the text layout computed by createTextTexture: greedy
word-wrap of the title and the paragraphs followed by the attribution
lines.  Text measurement is a parameter indexed by the font size (the
only varying part of the font the source sets before measuring).  The
fixed text content of the component is passed as a parameter. -/

/-- Text content drawn by the component: a title, body paragraphs and
attribution lines. -/
structure TextContent where
  title : String
  paragraphs : List String
  attribution : List String

/-- One rendered line: its text and the position of its fillText call. -/
structure LayoutLine where
  text : String
  x : ℚ
  y : ℚ
deriving DecidableEq

/-- Greedy word-wrap loop of createTextTexture: append the next word to
the current line; when the measured test line exceeds the maximum width
and the word is not the first, flush the current line and start a new one
a line height lower.  Returns the emitted lines and the y coordinate of
the last one. -/
def wrapWords (measure : String → ℚ) (maxWidth lineHeight leftX : ℚ) :
    List String → Bool → String → ℚ → List LayoutLine × ℚ
  | [], _, line, y => ([⟨line.trim, leftX, y⟩], y)
  | w :: ws, isFirst, line, y =>
    if measure (line ++ w ++ " ") > maxWidth ∧ isFirst = false then
      ((⟨line.trim, leftX, y⟩ ::
         (wrapWords measure maxWidth lineHeight leftX ws false (w ++ " ")
           (y + lineHeight)).1),
       (wrapWords measure maxWidth lineHeight leftX ws false (w ++ " ")
         (y + lineHeight)).2)
    else
      wrapWords measure maxWidth lineHeight leftX ws false (line ++ w ++ " ") y

/-- Paragraph loop of createTextTexture: wrap each paragraph, then advance
by one line height plus a gap of 16 between paragraphs and 32 after the
last one. -/
def layoutParagraphs (measure : String → ℚ) (maxWidth lineHeight leftX : ℚ) :
    List String → ℚ → List LayoutLine × ℚ
  | [], y => ([], y)
  | p :: ps, y =>
    ((wrapWords measure maxWidth lineHeight leftX (p.splitOn " ") true "" y).1 ++
       (layoutParagraphs measure maxWidth lineHeight leftX ps
         ((wrapWords measure maxWidth lineHeight leftX (p.splitOn " ") true "" y).2 +
           lineHeight + (if ps.isEmpty then 32 else 16))).1,
     (layoutParagraphs measure maxWidth lineHeight leftX ps
       ((wrapWords measure maxWidth lineHeight leftX (p.splitOn " ") true "" y).2 +
         lineHeight + (if ps.isEmpty then 32 else 16))).2)

/-- Attribution loop of createTextTexture: each line drawn at the current
y, advancing by the given step. -/
def layoutAttribution (leftX step : ℚ) : List String → ℚ → List LayoutLine
  | [], _ => []
  | line :: rest, y => ⟨line, leftX, y⟩ :: layoutAttribution leftX step rest (y + step)

/-- Full text layout of createTextTexture of LiquidGlassCanvas.tsx for a
viewport of logical size w by h: responsive font sizes and padding, a
vertically centered start, greedy-wrapped title and paragraphs, and the
attribution block.  The measure parameter gives the measured width of a
string under the font of the given size. -/
def createTextLayout (measure : ℚ → String → ℚ) (tc : TextContent) (w h : ℚ)
    (isMobile : Bool) : List LayoutLine :=
  let titleSize : ℚ := if isMobile then 32 else 60
  let contentSize : ℚ := if isMobile then 14 else 20
  let padding : ℚ := if isMobile then 20 else 64
  let leftX := padding
  let startY := max 60 ((h - 600) / 2)
  let maxWidth := min 672 (w - padding * 2)
  let title := wrapWords (measure titleSize) maxWidth (titleSize * (125/100)) leftX
    (tc.title.splitOn " ") true "" startY
  let afterTitle := title.2 + titleSize * (125/100) + (if isMobile then 24 else 48)
  let paras := layoutParagraphs (measure contentSize) maxWidth
    (contentSize * (1625/1000)) leftX tc.paragraphs afterTitle
  let attr := layoutAttribution leftX (contentSize * (125/100) + 4) tc.attribution
    (paras.2 + 32)
  title.1 ++ paras.1 ++ attr

/-- Simple deterministic measure used in the layout witness. -/
def demoMeasure : ℚ → String → ℚ := fun sz s => sz * (s.length : ℚ)

/-- Small concrete text content used in the layout witness. -/
def demoContent : TextContent :=
  ⟨"lorem ipsum dolor", ["sit amet consectetur", "adipiscing elit"],
   ["alpha", "beta"]⟩

/-! ### Theorems -/

/-- Helper: the lens radius of the full-screen shader is positive. -/
theorem canvasLensRadius_pos (mob : Bool) : 0 < canvasLensRadius mob := by
  cases mob <;> norm_num [canvasLensRadius]

/-- C1: for every pixel whose aspect-corrected distance from the
aspect-corrected pointer position is at least the lens radius
(normalizedDist at least 1), the full-screen shader returns the source
texture sampled unmodified at the original coordinate, for every pointer
position, viewport size and GPU math implementation. -/
theorem canvasShader_identity_outside_lens (m : GpuMath) (mob : Bool) (time : ℚ)
    (res mp uv : Vec2) (tex : Vec2 → Color)
    (h : 1 ≤ canvasNormalizedDist m mob res mp uv) :
    canvasShader m mob time res mp tex uv = tex uv := by
  have hr : 0 < canvasLensRadius mob := canvasLensRadius_pos mob
  have hd : canvasLensRadius mob ≤ canvasDist m res mp uv := by
    unfold canvasNormalizedDist at h
    exact (one_le_div hr).mp h
  unfold canvasShader
  rw [if_neg (not_lt.mpr hd)]

/-- Witness for C1 at a concrete input: viewport 1024 by 768, pointer at
pixel (512, 384), pixel at uv (0, 1/2), desktop configuration. -/
theorem canvasShader_identity_outside_lens_witness :
    1 ≤ canvasNormalizedDist qMath false (1024, 768) (512, 384) (0, 1/2) ∧
    canvasShader qMath false 0 (1024, 768) (512, 384) texWhite (0, 1/2) =
      texWhite (0, 1/2) := by
  have h : 1 ≤ canvasNormalizedDist qMath false (1024, 768) (512, 384) (0, 1/2) := by
    norm_num [canvasNormalizedDist, canvasDist, canvasAspectDistSq, canvasLensRadius,
      aspectPt, canvasAR, mouseNorm, distSqQ, qMath, ratSqrt]
  exact ⟨h, canvasShader_identity_outside_lens qMath false 0 (1024, 768) (512, 384)
    (0, 1/2) texWhite h⟩

/-- Helper: multiplying the aspect-corrected squared distance by the square
of the shorter viewport side gives the squared on-screen pixel distance. -/
theorem canvasAspectDistSq_mul_eq (res mp uv : Vec2) (hW : 0 < res.1) (hH : 0 < res.2) :
    canvasAspectDistSq res mp uv *
      (if canvasAR res > 1 then res.2 * res.2 else res.1 * res.1) =
    screenDistSq res mp uv := by
  have hW0 : res.1 ≠ 0 := ne_of_gt hW
  have hH0 : res.2 ≠ 0 := ne_of_gt hH
  unfold canvasAspectDistSq screenDistSq aspectPt canvasAR mouseNorm distSqQ
  split_ifs with hA
  · field_simp
    ring
  · have hAR : res.1 / res.2 ≠ 0 := div_ne_zero hW0 hH0
    field_simp
    ring

/-- C4: two sample points at equal on-screen pixel radii from the pointer
receive equal normalizedDist values under the aspect correction, for every
viewport (landscape or portrait), pointer position and GPU math
implementation: the lens region is circular on screen. -/
theorem canvasNormalizedDist_circular (m : GpuMath) (mob : Bool) (res mp u1 u2 : Vec2)
    (hW : 0 < res.1) (hH : 0 < res.2)
    (h : screenDistSq res mp u1 = screenDistSq res mp u2) :
    canvasNormalizedDist m mob res mp u1 = canvasNormalizedDist m mob res mp u2 := by
  have hF : (if canvasAR res > 1 then res.2 * res.2 else res.1 * res.1) ≠ 0 := by
    split_ifs
    · exact mul_ne_zero (ne_of_gt hH) (ne_of_gt hH)
    · exact mul_ne_zero (ne_of_gt hW) (ne_of_gt hW)
  have key : canvasAspectDistSq res mp u1 = canvasAspectDistSq res mp u2 :=
    mul_right_cancel₀ hF (by
      rw [canvasAspectDistSq_mul_eq res mp u1 hW hH,
        canvasAspectDistSq_mul_eq res mp u2 hW hH, h])
  unfold canvasNormalizedDist canvasDist
  rw [key]

/-- Witness for C4: viewport 1024 by 768, pointer at (512, 384); the pixels
(612, 384) and (512, 484) both lie 100 on-screen pixels from the pointer
and get the same normalizedDist. -/
theorem canvasNormalizedDist_circular_witness :
    (0:ℚ) < 1024 ∧ (0:ℚ) < 768 ∧
    screenDistSq (1024, 768) (512, 384) (612/1024, 1/2) =
      screenDistSq (1024, 768) (512, 384) (1/2, 484/768) ∧
    canvasNormalizedDist qMath false (1024, 768) (512, 384) (612/1024, 1/2) =
      canvasNormalizedDist qMath false (1024, 768) (512, 384) (1/2, 484/768) := by
  refine ⟨by norm_num, by norm_num, by norm_num [screenDistSq], ?_⟩
  exact canvasNormalizedDist_circular qMath false (1024, 768) (512, 384)
    (612/1024, 1/2) (1/2, 484/768) (by norm_num) (by norm_num)
    (by norm_num [screenDistSq])

/-- Helper: squared distance from a point to itself is zero. -/
theorem distSqQ_self (p : Vec2) : distSqQ p p = 0 := by
  simp [distSqQ]

/-- Helper: scaling a vector by zero gives the zero vector. -/
theorem vscale_zero (v : Vec2) : vscale 0 v = ((0:ℚ), (0:ℚ)) := by
  simp [vscale]

/-- Helper: converting the zero offset back to UV space gives zero. -/
theorem unscale_zero (ar : ℚ) : unscale ar ((0:ℚ), (0:ℚ)) = ((0:ℚ), (0:ℚ)) := by
  unfold unscale
  split_ifs <;> simp

/-- Helper: subtracting the zero vector is the identity. -/
theorem vec_sub_zero (v : Vec2) : v - ((0:ℚ), (0:ℚ)) = v := by
  cases v with
  | mk x y => simp [Prod.mk_sub_mk]

/-- Helper: the glass tint changes any color with a nonzero red or green
channel. -/
theorem canvasTint_ne (c : Color) (h : c.r ≠ 0 ∨ c.g ≠ 0) : canvasTint c ≠ c := by
  intro he
  have hr := congrArg Color.r he
  have hg := congrArg Color.g he
  simp [canvasTint] at hr hg
  rcases h with h | h
  · exact h (by linarith)
  · exact h (by linarith)

/-- Helper: inside the lens and below the chromatic threshold, the shader
output is the tinted sample at sampleUV. -/
theorem canvasShader_tint_core (m : GpuMath) (mob : Bool) (time : ℚ) (res mp uv : Vec2)
    (tex : Vec2 → Color)
    (h1 : canvasDist m res mp uv < canvasLensRadius mob)
    (h2 : canvasNormalizedDist m mob res mp uv ≤ 75/100) :
    canvasShader m mob time res mp tex uv =
      canvasTint (tex (canvasSampleUV m mob time res mp uv)) := by
  unfold canvasShader
  rw [if_pos h1]
  unfold canvasLensColor
  rw [if_neg (not_lt.mpr h2)]

/-- C9: every pixel strictly inside the lens that stays at or below the
chromatic threshold (normalizedDist at most 0.75) gets its sampled RGB
multiplied by the fixed tint (0.995, 0.998, 1.0) before output; in
particular the pixel at distance 0 from the pointer is sampled at its own
unmodified coordinate and, whenever that sample has a nonzero red or green
channel, is not returned color-identical to the source texture. -/
theorem canvasShader_tint_inside :
    (∀ (m : GpuMath) (mob : Bool) (time : ℚ) (res mp uv : Vec2) (tex : Vec2 → Color),
       canvasDist m res mp uv < canvasLensRadius mob →
       canvasNormalizedDist m mob res mp uv ≤ 75/100 →
       canvasShader m mob time res mp tex uv =
         canvasTint (tex (canvasSampleUV m mob time res mp uv))) ∧
    (∀ (m : GpuMath) (mob : Bool) (time : ℚ) (res mp uv : Vec2) (tex : Vec2 → Color),
       mouseNorm res mp = uv → m.sqrt 0 = 0 →
       canvasShader m mob time res mp tex uv = canvasTint (tex uv) ∧
       ((tex uv).r ≠ 0 ∨ (tex uv).g ≠ 0 →
         canvasShader m mob time res mp tex uv ≠ tex uv)) := by
  constructor
  · exact canvasShader_tint_core
  · intro m mob time res mp uv tex hm h0
    have hA : canvasAspectDistSq res mp uv = 0 := by
      unfold canvasAspectDistSq
      rw [hm]
      exact distSqQ_self _
    have hdist : canvasDist m res mp uv = 0 := by
      unfold canvasDist
      rw [hA, h0]
    have hnd : canvasNormalizedDist m mob res mp uv = 0 := by
      unfold canvasNormalizedDist
      rw [hdist, zero_div]
    have h1 : canvasDist m res mp uv < canvasLensRadius mob := by
      rw [hdist]
      exact canvasLensRadius_pos mob
    have h2 : canvasNormalizedDist m mob res mp uv ≤ 75/100 := by
      rw [hnd]
      norm_num
    have hsuv : canvasSampleUV m mob time res mp uv = uv := by
      unfold canvasSampleUV
      rw [hnd, if_pos (by norm_num : (0:ℚ) ≤ 6/10), vscale_zero, unscale_zero,
        vec_sub_zero]
    have heq := canvasShader_tint_core m mob time res mp uv tex h1 h2
    rw [hsuv] at heq
    refine ⟨heq, fun hne hid => ?_⟩
    exact canvasTint_ne (tex uv) hne (heq.symm.trans hid)

/-- Witness for C9 at a concrete input: viewport 1024 by 768, pointer at
(512, 384), pixel at uv (1/2, 1/2) (distance 0), white texture. -/
theorem canvasShader_tint_inside_witness :
    mouseNorm (1024, 768) (512, 384) = ((1:ℚ)/2, (1:ℚ)/2) ∧
    canvasShader qMath false 0 (1024, 768) (512, 384) texWhite (1/2, 1/2) =
      canvasTint (texWhite (1/2, 1/2)) ∧
    canvasShader qMath false 0 (1024, 768) (512, 384) texWhite (1/2, 1/2) ≠
      texWhite (1/2, 1/2) := by
  have hm : mouseNorm (1024, 768) (512, 384) = ((1:ℚ)/2, (1:ℚ)/2) := by
    norm_num [mouseNorm, Prod.ext_iff]
  have h0 : qMath.sqrt 0 = 0 := by norm_num [qMath, ratSqrt]
  have h := canvasShader_tint_inside.2 qMath false 0 (1024, 768) (512, 384)
    ((1:ℚ)/2, (1:ℚ)/2) texWhite hm h0
  exact ⟨hm, h.1, h.2 (Or.inl (by norm_num [texWhite]))⟩

/-- C8: every output pixel of the movable lens shader whose
texture-coordinate distance from the canvas center exceeds 0.5 is written
fully transparent (all four components zero), for every pointer position,
texture and lens size, in both the LiquidGlassLens shader and the useWebGL
hook shader: the visible output never leaves the inscribed circle. -/
theorem lensShader_transparent_outside_circle (m : GpuMath)
    (lensPos lensSize pageRes p4Pos p4Size p4Res : Vec2)
    (tex tex4 : Vec2 → Color) (uv : Vec2)
    (h : lensDistFromCenter m uv > 1/2) :
    lensShader m lensPos lensSize pageRes tex uv = some ⟨0, 0, 0, 0⟩ ∧
    p4Shader m p4Pos p4Size p4Res tex4 uv = ⟨0, 0, 0, 0⟩ := by
  constructor
  · unfold lensShader
    rw [if_pos h]
  · unfold p4Shader
    rw [if_pos h]

/-- Witness for C8 at the concrete pixel (0.86, 0.98), which lies at
distance 0.6 from the canvas center. -/
theorem lensShader_transparent_outside_circle_witness :
    lensDistFromCenter qMath (43/50, 49/50) > 1/2 ∧
    lensShader qMath (100, 100) (200, 200) (1024, 768) texWhite (43/50, 49/50) =
      some ⟨0, 0, 0, 0⟩ ∧
    p4Shader qMath (100, 100) (200, 200) (1024, 768) texWhite (43/50, 49/50) =
      ⟨0, 0, 0, 0⟩ := by
  have h : lensDistFromCenter qMath ((43:ℚ)/50, (49:ℚ)/50) > 1/2 := by
    norm_num [lensDistFromCenter, distSqQ, lensCenter, qMath, ratSqrt]
  have hh := lensShader_transparent_outside_circle qMath (100, 100) (200, 200)
    (1024, 768) (100, 100) (200, 200) (1024, 768) texWhite texWhite
    ((43:ℚ)/50, (49:ℚ)/50) h
  exact ⟨h, hh.1, hh.2⟩

/-- C2 counterexample: in the chromatic zone of the LiquidGlassLens shader
an out-of-bounds sample coordinate does not produce a discarded or fully
transparent result.  At pixel (0.85, 0.5) with the lens at page position
(5000, 5000) every channel coordinate lies outside the unit square, yet
the shader returns opaque black (alpha 1). -/
theorem lensShader_oob_transparent_counterexample :
    ¬ (∀ (m : GpuMath) (lensPos lensSize pageRes : Vec2) (tex : Vec2 → Color) (uv : Vec2),
        ¬ lensDistFromCenter m uv > 1/2 →
        (∃ c ∈ lensSampleCoords m lensPos lensSize pageRes uv, ¬ texCoordInUnit c) →
        (lensShader m lensPos lensSize pageRes tex uv = none ∨
         ∃ col, lensShader m lensPos lensSize pageRes tex uv = some col ∧ col.a = 0)) := by
  intro hclaim
  have hin : ¬ lensDistFromCenter qMath ((17:ℚ)/20, (1:ℚ)/2) > 1/2 := by
    norm_num [lensDistFromCenter, distSqQ, lensCenter, qMath, ratSqrt]
  have hgt : lensNormalizedDist qMath ((17:ℚ)/20, (1:ℚ)/2) > 6/10 := by
    norm_num [lensNormalizedDist, lensDistFromCenter, distSqQ, lensCenter, qMath, ratSqrt]
  have hred : ¬ texCoordInUnit
      (lensRedCoord qMath (5000, 5000) (200, 200) (1024, 768) ((17:ℚ)/20, (1:ℚ)/2)) := by
    norm_num [lensRedCoord, lensTexCoord, lensFinalPageCoord, lensAberration,
      lensNormalizedDist, lensDistFromCenter, lensDirection, vnormalize, vlen,
      distSqQ, lensCenter, divByRes, vscale, texCoordInUnit, qMath, ratSqrt,
      Prod.mk_add_mk, Prod.mk_sub_mk, Prod.mk_mul_mk]
  have hex : ∃ c ∈ lensSampleCoords qMath (5000, 5000) (200, 200) (1024, 768)
      ((17:ℚ)/20, (1:ℚ)/2), ¬ texCoordInUnit c := by
    refine ⟨lensRedCoord qMath (5000, 5000) (200, 200) (1024, 768)
      ((17:ℚ)/20, (1:ℚ)/2), ?_, hred⟩
    unfold lensSampleCoords
    rw [if_pos hgt]
    exact List.mem_cons_self _ _
  have heval : lensShader qMath (5000, 5000) (200, 200) (1024, 768) texWhite
      ((17:ℚ)/20, (1:ℚ)/2) = some ⟨0, 0, 0, 1⟩ := by
    norm_num [lensShader, lensNormalizedDist, lensDistFromCenter, lensCenter, distSqQ,
      lensChromaticBase, guardedSample, lensRedCoord, lensGreenCoord, lensBlueCoord,
      lensTexCoord, lensFinalPageCoord, lensAberration, lensDirection, vnormalize, vlen,
      divByRes, vscale, lensPrism, lensGlass, mixQ, smoothstepQ, texCoordInUnit,
      texWhite, qMath, ratSqrt, Prod.mk_add_mk, Prod.mk_sub_mk, Prod.mk_mul_mk]
  rcases hclaim qMath (5000, 5000) (200, 200) (1024, 768) texWhite
      ((17:ℚ)/20, (1:ℚ)/2) hin hex with h | ⟨col, hcol, ha⟩
  · rw [heval] at h
    exact Option.noConfusion h
  · rw [heval] at hcol
    have hc := Option.some.inj hcol
    rw [← hc] at ha
    norm_num at ha

/-- Helper: a guarded channel sample only depends on the texture inside the
unit square. -/
theorem guardedSample_congr (tex tex2 : Vec2 → Color) (proj : Color → ℚ) (c : Vec2)
    (hagree : ∀ p : Vec2, texCoordInUnit p → tex p = tex2 p) :
    guardedSample tex proj c = guardedSample tex2 proj c := by
  unfold guardedSample
  split_ifs with h
  · rw [hagree c h]
  · rfl

/-- Helper: the chromatic-zone base color only depends on the texture
inside the unit square. -/
theorem lensChromaticBase_congr (m : GpuMath) (lensPos lensSize pageRes : Vec2)
    (tex tex2 : Vec2 → Color) (uv : Vec2)
    (hagree : ∀ p : Vec2, texCoordInUnit p → tex p = tex2 p) :
    lensChromaticBase m lensPos lensSize pageRes tex uv =
      lensChromaticBase m lensPos lensSize pageRes tex2 uv := by
  unfold lensChromaticBase
  rw [guardedSample_congr tex tex2 Color.r _ hagree,
    guardedSample_congr tex tex2 Color.g _ hagree,
    guardedSample_congr tex tex2 Color.b _ hagree]

/-- Helper: a coordinate clamped by the CLAMP_TO_EDGE sampler always lies
in the unit square. -/
theorem clampToEdge_mem (p : Vec2) : texCoordInUnit (clampToEdge p) := by
  unfold clampToEdge texCoordInUnit
  dsimp only
  exact ⟨le_min zero_le_one (le_max_left 0 p.1), min_le_left _ _,
    le_min zero_le_one (le_max_left 0 p.2), min_le_left _ _⟩

/-- Helper: the full-screen shader never discards and preserves full
opacity: when every texture sample has alpha 1, the output has alpha 1 on
every path (outside the lens, tinted sample, chromatic recombination, and
prism blend). -/
theorem canvasShader_alpha_one (m : GpuMath) (mob : Bool) (time : ℚ)
    (res mp uv : Vec2) (tex : Vec2 → Color) (h : ∀ p : Vec2, (tex p).a = 1) :
    (canvasShader m mob time res mp tex uv).a = 1 := by
  simp only [canvasShader, canvasLensColor, canvasChromaticColor,
    canvasChromaticBaseColor, canvasTint]
  split_ifs <;> simp [h]

/-- C2 amended: neither shader ever wraps a sample coordinate.  The
LiquidGlassLens shader never reads the texture at a coordinate outside
the unit square (its output is unchanged under any modification of the
texture outside the unit square) and in its center zone an out-of-bounds
coordinate discards the fragment, though in its chromatic zone such a
coordinate merely zeroes that channel of an otherwise opaque result (see
the counterexample).  The full-screen LiquidGlassCanvas shader has no
bounds checks and no discard: through its CLAMP_TO_EDGE sampler a sample
coordinate pushed past the texture edge is clamped into the unit square
before the read (so its output also depends only on texture content
inside the unit square) and the output of an everywhere-opaque texture
keeps alpha 1, so an out-of-bounds coordinate there produces an opaque
clamped edge read rather than a discarded or transparent result. -/
theorem lensShader_no_oob_reads :
    (∀ (m : GpuMath) (lensPos lensSize pageRes : Vec2) (tex tex2 : Vec2 → Color) (uv : Vec2),
       (∀ p : Vec2, texCoordInUnit p → tex p = tex2 p) →
       lensShader m lensPos lensSize pageRes tex uv =
         lensShader m lensPos lensSize pageRes tex2 uv) ∧
    (∀ (m : GpuMath) (lensPos lensSize pageRes : Vec2) (tex : Vec2 → Color) (uv : Vec2),
       ¬ lensDistFromCenter m uv > 1/2 →
       ¬ lensNormalizedDist m uv > 6/10 →
       ¬ texCoordInUnit (lensTexCoord m lensPos lensSize pageRes uv) →
       lensShader m lensPos lensSize pageRes tex uv = none) ∧
    (∀ (m : GpuMath) (mob : Bool) (time : ℚ) (res mp uv : Vec2) (tex tex2 : Vec2 → Color),
       (∀ p : Vec2, texCoordInUnit p → tex p = tex2 p) →
       canvasShader m mob time res mp (sampleClampToEdge tex) uv =
         canvasShader m mob time res mp (sampleClampToEdge tex2) uv) ∧
    (∀ (m : GpuMath) (mob : Bool) (time : ℚ) (res mp uv : Vec2) (tex : Vec2 → Color),
       (∀ p : Vec2, (tex p).a = 1) →
       (canvasShader m mob time res mp (sampleClampToEdge tex) uv).a = 1) := by
  refine ⟨?_, ?_, ?_, ?_⟩
  · intro m lensPos lensSize pageRes tex tex2 uv hagree
    unfold lensShader
    by_cases h1 : lensDistFromCenter m uv > 1/2
    · simp only [if_pos h1]
    · simp only [if_neg h1]
      by_cases h2 : lensNormalizedDist m uv > 6/10
      · simp only [if_pos h2,
          lensChromaticBase_congr m lensPos lensSize pageRes tex tex2 uv hagree]
      · simp only [if_neg h2]
        by_cases h3 : texCoordInUnit (lensTexCoord m lensPos lensSize pageRes uv)
        · simp only [if_pos h3, hagree _ h3]
        · simp only [if_neg h3]
  · intro m lensPos lensSize pageRes tex uv h1 h2 h3
    unfold lensShader
    rw [if_neg h1]
    simp only [if_neg h2, if_neg h3]
  · intro m mob time res mp uv tex tex2 hagree
    have hfun : sampleClampToEdge tex = sampleClampToEdge tex2 :=
      funext fun p => hagree (clampToEdge p) (clampToEdge_mem p)
    rw [hfun]
  · intro m mob time res mp uv tex h
    exact canvasShader_alpha_one m mob time res mp uv (sampleClampToEdge tex)
      (fun p => h (clampToEdge p))

/-- Witness for the amended C2 at concrete inputs: changing the texture
outside the unit square changes neither shader's output; the center-zone
lens pixel (0.6, 0.5) with the lens at page position (5000, 5000) has an
out-of-bounds coordinate and is discarded; and in the full-screen shader
at viewport 1024 by 768 with the pointer uniform at (1024, 56064/125) the
melting-zone pixel (1, 1/2) has its sample coordinate pushed to
x = 803/800 past the texture edge, yet the CLAMP_TO_EDGE sampler reads
the edge texel and the result is the opaque tinted edge color, neither
discarded nor transparent. -/
theorem lensShader_no_oob_reads_witness :
    (∀ p : Vec2, texCoordInUnit p → texWhite p = texOutsideMarked p) ∧
    lensShader qMath (5000, 5000) (200, 200) (1024, 768) texWhite (6/10, 1/2) =
      lensShader qMath (5000, 5000) (200, 200) (1024, 768) texOutsideMarked (6/10, 1/2) ∧
    lensShader qMath (5000, 5000) (200, 200) (1024, 768) texWhite (6/10, 1/2) = none ∧
    ¬ texCoordInUnit
      (canvasSampleUV cMath false 0 (1024, 768) (1024, 56064/125) (1, 1/2)) ∧
    canvasShader cMath false 0 (1024, 768) (1024, 56064/125)
        (sampleClampToEdge texOutsideMarked) (1, 1/2) = canvasTint ⟨1, 1, 1, 1⟩ ∧
    canvasShader cMath false 0 (1024, 768) (1024, 56064/125)
        (sampleClampToEdge texWhite) (1, 1/2) =
      canvasShader cMath false 0 (1024, 768) (1024, 56064/125)
        (sampleClampToEdge texOutsideMarked) (1, 1/2) ∧
    (canvasShader cMath false 0 (1024, 768) (1024, 56064/125)
        (sampleClampToEdge texWhite) (1, 1/2)).a = 1 := by
  have hagree : ∀ p : Vec2, texCoordInUnit p → texWhite p = texOutsideMarked p := by
    intro p hp
    simp [texWhite, texOutsideMarked, hp]
  refine ⟨hagree,
    lensShader_no_oob_reads.1 qMath (5000, 5000) (200, 200) (1024, 768)
      texWhite texOutsideMarked (6/10, 1/2) hagree,
    lensShader_no_oob_reads.2.1 qMath (5000, 5000) (200, 200) (1024, 768)
      texWhite (6/10, 1/2) ?_ ?_ ?_, ?_, ?_,
    lensShader_no_oob_reads.2.2.1 cMath false 0 (1024, 768) (1024, 56064/125)
      (1, 1/2) texWhite texOutsideMarked hagree,
    lensShader_no_oob_reads.2.2.2 cMath false 0 (1024, 768) (1024, 56064/125)
      (1, 1/2) texWhite (fun _ => rfl)⟩
  · norm_num [lensDistFromCenter, distSqQ, lensCenter, qMath, ratSqrt]
  · norm_num [lensNormalizedDist, lensDistFromCenter, distSqQ, lensCenter, qMath, ratSqrt]
  · norm_num [lensTexCoord, lensFinalPageCoord, lensNormalizedDist, lensDistFromCenter,
      distSqQ, lensCenter, divByRes, vscale, texCoordInUnit, qMath, ratSqrt,
      Prod.mk_add_mk, Prod.mk_sub_mk, Prod.mk_mul_mk]
  · norm_num [canvasSampleUV, canvasMeltPull, canvasNormalizedDist, canvasDist,
      canvasAspectDistSq, canvasLensRadius, aspectPt, canvasAR, mouseNorm, unscale,
      vscale, vlen, distSqQ, cMath, ratSqrt, texCoordInUnit,
      Prod.mk_add_mk, Prod.mk_sub_mk, Prod.mk_mul_mk]
  · norm_num [canvasShader, canvasLensColor, canvasTint, canvasSampleUV, canvasMeltPull,
      canvasNormalizedDist, canvasDist, canvasAspectDistSq, canvasLensRadius, aspectPt,
      canvasAR, mouseNorm, unscale, vscale, vlen, distSqQ, cMath, ratSqrt,
      sampleClampToEdge, clampToEdge, texOutsideMarked, texCoordInUnit, min_def, max_def,
      Prod.mk_add_mk, Prod.mk_sub_mk, Prod.mk_mul_mk]

/-- C10: in the full-screen canvas component a vertical pointer offset with
zero horizontal component is applied on desktop as well as mobile: a
desktop mouse-move sets the lens center 30 logical pixels above the cursor,
and a mobile touch-start or touch-move sets it 100 pixels above the touch
point. -/
theorem canvasHandleMouseMove_offsets :
    (∀ x y : ℚ, canvasHandleMouseMove false x y = (x, y - 30)) ∧
    (∀ (x y : ℚ) (prev : Vec2),
       canvasHandleTouchStart true 1 x y prev = ((x, y - 100), true)) ∧
    (∀ (x y : ℚ) (prev : Vec2),
       canvasHandleTouchMove true true 1 x y prev = (x, y - 100)) := by
  refine ⟨fun x y => ?_, fun x y prev => ?_, fun x y prev => ?_⟩
  · unfold canvasHandleMouseMove canvasGetOffset
    norm_num [Prod.ext_iff]
    ring
  · unfold canvasHandleTouchStart canvasGetOffset
    norm_num [Prod.ext_iff]
    ring
  · unfold canvasHandleTouchMove canvasGetOffset
    norm_num [Prod.ext_iff]
    ring

/-- C3 counterexample: it is not the case that every touch-start or
touch-move handler leaves the browser default intact in every state where
the lens is idle.  In the part_003 canvas variant a single-finger
touch-start on a mobile-classified device calls preventDefault even when
the lens is not shown and no touch is being followed, and in
LiquidGlassLens the handlers prevent the default whenever the isLensActive
toggle is on, regardless of whether a touch is being followed. -/
theorem touch_preventDefault_idle_counterexample :
    ¬ ((∀ active interacting : Bool, interacting = false →
          lensTouchPreventsDefault active = false) ∧
       (∀ (st : P3State) (touches : ℕ) (cx cy : ℚ),
          st.showLens = false → st.isTouching = false →
          (p3HandleTouchStart st touches cx cy).2 = false ∧
          (p3HandleTouchMove st touches cx cy).2 = false)) := by
  intro h
  have hfalse := (h.2 ⟨true, false, false, (0, 0)⟩ 1 0 0 rfl rfl).1
  simp [p3HandleTouchStart] at hfalse

/-- C3 amended: suppression of the browser default is conditional in every
handler, but it is gated on lens activation rather than on following a
touch: the LiquidGlassLens handlers prevent the default exactly when the
isLensActive toggle is on; the part_003 touch-move handler never prevents
the default when no touch is being followed and neither handler does on a
non-mobile classification; yet the part_003 touch-start handler prevents
the default for a single-finger touch on a mobile classification even from
the idle state. -/
theorem touch_preventDefault_conditional :
    (∀ active : Bool, lensTouchPreventsDefault active = active) ∧
    (∀ (mob sl : Bool) (pos : Vec2) (touches : ℕ) (cx cy : ℚ),
       (p3HandleTouchMove ⟨mob, sl, false, pos⟩ touches cx cy).2 = false) ∧
    (∀ (sl it : Bool) (pos : Vec2) (touches : ℕ) (cx cy : ℚ),
       (p3HandleTouchStart ⟨false, sl, it, pos⟩ touches cx cy).2 = false) ∧
    (p3HandleTouchStart ⟨true, false, false, (0, 0)⟩ 1 100 200).2 = true := by
  refine ⟨fun _ => rfl, ?_, ?_, ?_⟩
  · intro mob sl pos touches cx cy
    simp [p3HandleTouchMove]
  · intro sl it pos touches cx cy
    simp [p3HandleTouchStart]
  · simp [p3HandleTouchStart]

/-- Helper: a call inside the minimum interval is a no-op that reports
throttled. -/
theorem captureTexture_throttled_eq (isMobile : Bool) (t : ℤ)
    (r : Option (ℕ × ℕ × ℕ)) (s : LensState)
    (h : t - s.lastCaptureTime < minCaptureInterval isMobile) :
    captureTexture isMobile true t r s = (s, CaptureOutcome.throttled) := by
  unfold captureTexture
  simp [h]

/-- Helper: a call outside the minimum interval records its time and does
not report throttled. -/
theorem captureTexture_exec (isMobile : Bool) (t : ℤ) (r : Option (ℕ × ℕ × ℕ))
    (s : LensState) (h : ¬ t - s.lastCaptureTime < minCaptureInterval isMobile) :
    (captureTexture isMobile true t r s).1.lastCaptureTime = t ∧
    (captureTexture isMobile true t r s).2 ≠ CaptureOutcome.throttled := by
  unfold captureTexture
  cases r <;> simp [h]

/-- Helper: when every request of a run falls inside the minimum interval
measured from the current state, no capture executes and the state is
unchanged. -/
theorem captureRun_all_throttled (isMobile : Bool)
    (reqs : List (ℤ × Option (ℕ × ℕ × ℕ))) :
    ∀ s : LensState,
      (∀ q ∈ reqs, q.1 - s.lastCaptureTime < minCaptureInterval isMobile) →
      captureRun isMobile s reqs = (s, 0) := by
  induction reqs with
  | nil => intro s _; rfl
  | cons q rest ih =>
    intro s h
    have hq := h q (List.mem_cons_self q rest)
    unfold captureRun
    rw [captureTexture_throttled_eq isMobile q.1 q.2 s hq,
      ih s (fun p hp => h p (List.mem_cons_of_mem q hp))]
    simp

/-- Helper: a run whose requests all lie within one minimum interval of
each other executes at most one capture. -/
theorem captureRun_window_le_one (isMobile : Bool)
    (reqs : List (ℤ × Option (ℕ × ℕ × ℕ))) :
    ∀ s : LensState,
      (∀ p ∈ reqs, ∀ q ∈ reqs, p.1 - q.1 < minCaptureInterval isMobile) →
      (captureRun isMobile s reqs).2 ≤ 1 := by
  induction reqs with
  | nil => intro s _; simp [captureRun]
  | cons q rest ih =>
    intro s h
    by_cases hq : q.1 - s.lastCaptureTime < minCaptureInterval isMobile
    · unfold captureRun
      rw [captureTexture_throttled_eq isMobile q.1 q.2 s hq]
      simpa using ih s
        (fun p hp p2 hp2 =>
          h p (List.mem_cons_of_mem q hp) p2 (List.mem_cons_of_mem q hp2))
    · have hex := captureTexture_exec isMobile q.1 q.2 s hq
      unfold captureRun
      rw [captureRun_all_throttled isMobile rest
        (captureTexture isMobile true q.1 q.2 s).1
        (fun p hp => by
          rw [hex.1]
          exact h p (List.mem_cons_of_mem q hp) q (List.mem_cons_self q rest))]
      split_ifs <;> simp

/-- C5: for every sequence of capture requests issued within one minimum
inter-capture interval of each other, at most one capture executes, and
every request that falls inside the minimum interval measured from the
last executed capture returns without performing the capture or modifying
any state. -/
theorem captureRun_throttle_at_most_one :
    (∀ (isMobile : Bool) (s : LensState)
       (reqs : List (ℤ × Option (ℕ × ℕ × ℕ))),
       (∀ p ∈ reqs, ∀ q ∈ reqs, p.1 - q.1 < minCaptureInterval isMobile) →
       (captureRun isMobile s reqs).2 ≤ 1) ∧
    (∀ (isMobile : Bool) (t : ℤ) (r : Option (ℕ × ℕ × ℕ)) (s : LensState),
       t - s.lastCaptureTime < minCaptureInterval isMobile →
       captureTexture isMobile true t r s = (s, CaptureOutcome.throttled)) :=
  ⟨fun isMobile s reqs h => captureRun_window_le_one isMobile reqs s h,
   captureTexture_throttled_eq⟩

/-- Witness for C5: two desktop requests 500 ms apart (inside the 1000 ms
interval) execute at most one capture, and a request 100 ms after the last
executed capture is a no-op. -/
theorem captureRun_throttle_at_most_one_witness :
    (∀ p ∈ [((0:ℤ), (some (8, 6, 1) : Option (ℕ × ℕ × ℕ))), ((500:ℤ), some (8, 6, 2))],
       ∀ q ∈ [((0:ℤ), (some (8, 6, 1) : Option (ℕ × ℕ × ℕ))), ((500:ℤ), some (8, 6, 2))],
       p.1 - q.1 < minCaptureInterval false) ∧
    (captureRun false ⟨-2000, none, none, true⟩
      [((0:ℤ), (some (8, 6, 1) : Option (ℕ × ℕ × ℕ))), ((500:ℤ), some (8, 6, 2))]).2 ≤ 1 ∧
    captureTexture false true 100 none ⟨0, none, none, true⟩ =
      (⟨0, none, none, true⟩, CaptureOutcome.throttled) := by
  have hw : ∀ p ∈ [((0:ℤ), (some (8, 6, 1) : Option (ℕ × ℕ × ℕ))), ((500:ℤ), some (8, 6, 2))],
      ∀ q ∈ [((0:ℤ), (some (8, 6, 1) : Option (ℕ × ℕ × ℕ))), ((500:ℤ), some (8, 6, 2))],
      p.1 - q.1 < minCaptureInterval false := by decide
  exact ⟨hw,
    captureRun_throttle_at_most_one.1 false ⟨-2000, none, none, true⟩ _ hw,
    captureRun_throttle_at_most_one.2 false 100 none ⟨0, none, none, true⟩ (by decide)⟩

/-- C6: when the rasterization of a non-throttled capture attempt fails,
the previously committed texture and its recorded dimensions are left
unchanged, the outcome is the logged failure (the call returns normally,
so the render loop keeps running), and the canvas is made visible again;
and when the 2D context for the static-text texture is unavailable, the
null result leaves the previous texture ref unchanged. -/
theorem captureTexture_failure_preserves_texture :
    (∀ (isMobile : Bool) (now : ℤ) (s : LensState),
       minCaptureInterval isMobile ≤ now - s.lastCaptureTime →
       (captureTexture isMobile true now none s).1.pageTexture = s.pageTexture ∧
       (captureTexture isMobile true now none s).1.texture = s.texture ∧
       (captureTexture isMobile true now none s).2 = CaptureOutcome.failed ∧
       (captureTexture isMobile true now none s).1.canvasVisible = true) ∧
    (∀ (newTexture : ℕ) (old : Option ℕ),
       commitTexture (createTextTextureGL none newTexture) old = old) := by
  constructor
  · intro isMobile now s h
    unfold captureTexture
    simp [not_lt.mpr h]
  · intro newTexture old
    rfl

/-- Witness for C6: a failed capture 5000 ms after a capture at time 0
keeps the recorded dimensions (800, 600) and texture 7. -/
theorem captureTexture_failure_preserves_texture_witness :
    minCaptureInterval false ≤
      (5000:ℤ) - (⟨0, some (800, 600), some 7, true⟩ : LensState).lastCaptureTime ∧
    (captureTexture false true 5000 none
        ⟨0, some (800, 600), some 7, true⟩).1.pageTexture = some (800, 600) ∧
    (captureTexture false true 5000 none
        ⟨0, some (800, 600), some 7, true⟩).1.texture = some 7 ∧
    (captureTexture false true 5000 none
        ⟨0, some (800, 600), some 7, true⟩).2 = CaptureOutcome.failed ∧
    commitTexture (createTextTextureGL none 9) (some 3) = some 3 := by
  obtain ⟨h1, h2, h3, -⟩ :=
    captureTexture_failure_preserves_texture.1 false 5000
      ⟨0, some (800, 600), some 7, true⟩ (by decide)
  exact ⟨by decide, h1, h2, h3,
    captureTexture_failure_preserves_texture.2 9 (some 3)⟩

/-- C7: the static-text layout is deterministic and idempotent: two runs
of the layout computation with the same viewport size, device class, text
content, and text-measurement behaviour produce identical line breaks and
identical coordinates for every rendered line of the title, paragraphs and
attribution. -/
theorem createTextLayout_deterministic (m1 m2 : ℚ → String → ℚ)
    (tc : TextContent) (w h : ℚ) (isMobile : Bool)
    (hm : ∀ sz s, m1 sz s = m2 sz s) :
    createTextLayout m1 tc w h isMobile = createTextLayout m2 tc w h isMobile := by
  have hfun : m1 = m2 := funext fun sz => funext fun s => hm sz s
  rw [hfun]

/-- Witness for C7: two runs over a concrete content and measure at
viewport 800 by 600 agree. -/
theorem createTextLayout_deterministic_witness :
    (∀ sz s, demoMeasure sz s = demoMeasure sz s) ∧
    createTextLayout demoMeasure demoContent 800 600 false =
      createTextLayout demoMeasure demoContent 800 600 false :=
  ⟨fun _ _ => rfl,
   createTextLayout_deterministic demoMeasure demoMeasure demoContent 800 600 false
     (fun _ _ => rfl)⟩
